import Mathlib

/-!
Shallow embedding of the SMM lead-generation analyzer
(`src/analyzer.py` together with the constants of `src/config.py`).

Modelling conventions:
* Python `datetime` values are epoch seconds (`Int`); `timedelta.days` is
  floor division by 86400.  The wall clock read by
  `datetime.now(timezone.utc)` is an explicit `now : Int` parameter.
* A post's `timestamp` dictionary entry is a `TsField`: `missing` when the
  key is absent, `unparseable` when `datetime.fromisoformat` would raise,
  `parsed t` when it parses to the instant `t`.  The datetime library is
  external to the repository, so the parse outcome is part of the input.
* The compiled regex matchers (`self.patterns`) are parameters of type
  `String → Bool` (for `search`) or `String → List String` (for `findall`),
  since the regex engine is an external library.  Hypotheses state the
  facts about `\b(..)\b` patterns a proof needs (e.g. no match in `""`).
* A Python `set` of strings is modelled as a duplicate-free list built in
  insertion order; `list(s)` is an explicit enumeration parameter
  `enum : List String → List String` (Python's set order is
  hash-seed-dependent; a faithful `enum` permutes, hence preserves length).
* `np.mean` / `np.var` are exact rational arithmetic (`ℚ`).
* `float('nan')` read from a missing `bio` cell and passed through
  `str(...)` becomes the literal string `"nan"`, as in Python.
-/

namespace SMM

/-- Outcome of reading a post's `timestamp` dictionary entry. -/
inductive TsField where
  | missing : TsField
  | unparseable : TsField
  | parsed : Int → TsField
deriving DecidableEq

/-- One element of a profile's `tweets` list: the `text` key (absent when
`'text' not in tweet`) and the `timestamp` entry. -/
structure Tweet where
  text : Option String
  timestamp : TsField
deriving DecidableEq

/-- One raw input record, per the input contract (a `handle`, a `bio` cell
that is `none` when pandas holds a non-string `NaN`, a follower count, a
profile URL, and the list of scraped posts). -/
structure Profile where
  handle : String
  bioText : Option String
  follower_count : Nat
  profile_url : String
  tweets : List Tweet
deriving DecidableEq

/-- Test that `needle` occurs at the head of `hay` (character-wise). -/
def substr_at : List Char → List Char → Bool
  | [], _ => true
  | _ :: _, [] => false
  | a :: xs, b :: ys => a == b && substr_at xs ys

/-- Test that `needle` occurs somewhere in `hay` (Python `needle in hay`). -/
def substr_search (needle : List Char) : List Char → Bool
  | [] => substr_at needle []
  | c :: rest => substr_at needle (c :: rest) || substr_search needle rest

/-- Python `needle in hay` for strings (code-point sequences). -/
def substr_in (needle hay : String) : Bool :=
  substr_search needle.data hay.data

/-- Python `str.lower` (code-point-wise; agrees with CPython on ASCII). -/
def str_lower (s : String) : String :=
  ⟨s.data.map Char.toLower⟩

/-- Python `s[:n]`: the first `n` code points. -/
def str_take (s : String) (n : Nat) : String :=
  ⟨s.data.take n⟩

/-- Python `sep.join(l)`. -/
def join_sep (sep : String) : List String → String
  | [] => ""
  | [x] => x
  | x :: y :: ys => x ++ sep ++ join_sep sep (y :: ys)

/-- Digit-grouping step of Python's `f"{n:,}"` on the reversed digit list. -/
def commaRev : List Char → List Char
  | [] => []
  | [a] => [a]
  | [a, b] => [a, b]
  | [a, b, c] => [a, b, c]
  | a :: b :: c :: rest => a :: b :: c :: ',' :: commaRev rest

/-- Python's `f"{n:,}"`: decimal digits grouped in threes by commas. -/
def commaFmt (n : Nat) : String :=
  ⟨(commaRev (toString n).data.reverse).reverse⟩

/-- Python `any(word in s for word in words)` on an already-lowered string. -/
def contains_any (words : List String) (s : String) : Bool :=
  words.any fun w => substr_in w s

/-- Source `Analyzer._classify_account_type`.  `fp` and `pp` are the compiled
`founder_bio` / `project_bio` matchers' `search` (truthiness of the match
object); `b = none` models a non-string bio (`isinstance` guard). -/
def classify_account_type (fp pp : String → Bool) (b : Option String) : String :=
  match b with
  | none => "Unknown"
  | some s =>
    let bio_lower := str_lower s
    if fp s then "Founder"
    else if pp s then "Project"
    else if contains_any ["i am", "i\x27m", "my startup", "i build"] bio_lower then
      "Founder"
    else if contains_any ["we are", "we\x27re", "our team", "we build"] bio_lower then
      "Project"
    else "Unknown"

/-- The timestamps accumulated by the parse loop of
`_calculate_posting_gaps` (posts without the `timestamp` key are skipped). -/
def parsed_timestamps (tweets_list : List Tweet) : List Int :=
  tweets_list.filterMap fun t =>
    match t.timestamp with
    | .parsed v => some v
    | _ => none

/-- The parse loop raises (and the surrounding `try` returns the sentinel)
iff some post's timestamp string fails to parse. -/
def has_unparseable (tweets_list : List Tweet) : Bool :=
  tweets_list.any fun t => t.timestamp = TsField.unparseable

/-- Python `(a - b).days` for instants in epoch seconds: floor division. -/
def delta_days (a b : Int) : Int :=
  Int.fdiv (a - b) 86400

/-- Gaps between consecutive entries of the (descending) timestamp list. -/
def consecutive_gaps : List Int → List Int
  | a :: b :: rest => delta_days a b :: consecutive_gaps (b :: rest)
  | _ => []

/-- Body of `_calculate_posting_gaps` after the parse loop succeeded:
sort newest-first, average gap, population variance, days since last post. -/
def gaps_from_timestamps (timestamps : List Int) (now : Int) : ℚ × ℚ × Int :=
  if timestamps.length < 2 then (9999, 0, 9999)
  else
    let sorted := List.insertionSort (fun a b : Int => b ≤ a) timestamps
    let gaps := consecutive_gaps sorted
    let avg_gap : ℚ := if gaps = [] then 9999 else (gaps.map (Int.cast : Int → ℚ)).sum / gaps.length
    let variance : ℚ :=
      if 1 < gaps.length then
        ((gaps.map fun g => ((g : ℚ) - avg_gap) * ((g : ℚ) - avg_gap)).sum) / gaps.length
      else 0
    let days_since := delta_days now (sorted.headD 0)
    (avg_gap, variance, days_since)

/-- Source `Analyzer._calculate_posting_gaps`.  The whole parse loop sits inside
`try/except`, so one unparseable timestamp string makes the function
return the sentinel for the entire profile. -/
def calculate_posting_gaps (tweets_list : List Tweet) (now : Int) : ℚ × ℚ × Int :=
  if tweets_list.length < 2 then (9999, 0, 9999)
  else if has_unparseable tweets_list then (9999, 0, 9999)
  else if (parsed_timestamps tweets_list).length < 2 then (9999, 0, 9999)
  else gaps_from_timestamps (parsed_timestamps tweets_list) now

/-- Source `Analyzer._detect_posting_pattern`: ordered decision list over the
cadence metrics, falling back to `"dormant"`. -/
def detect_posting_pattern (avg_gap : ℚ) (variance : ℚ) (days_since : Int) : String :=
  if 30 < days_since then "dormant"
  else if avg_gap ≤ 2 ∧ variance ≤ 1 then "daily_poster"
  else if 4 ≤ variance ∧ 2 ≤ avg_gap ∧ avg_gap ≤ 7 ∧ days_since ≤ 7 then "erratic_active"
  else if variance ≤ 3 ∧ 7 ≤ avg_gap ∧ avg_gap ≤ 14 ∧ days_since ≤ 14 then "sparse_consistent"
  else if days_since ≤ 7 ∧ 14 < avg_gap ∧ 10 < variance then "comeback_kid"
  else "dormant"

/-- One collected evidence post: truncated text plus its tier tag. -/
structure Sample where
  text : String
  tier : Nat
deriving DecidableEq

/-- Result record of `_find_struggle_keywords`. -/
structure StruggleFindings where
  tier1_keywords : List String
  tier2_keywords : List String
  struggle_tweets : List Sample
deriving DecidableEq

/-- Python `text[:100] + ... if len(text) > 100 else text`. -/
def truncate_text (text : String) : String :=
  if 100 < text.length then str_take text 100 ++ "..." else text

/-- Python `set.update`: add each element not already present, in order
(the list models the set's contents; enumeration order is `enum`'s job). -/
def set_update (s : List String) (xs : List String) : List String :=
  xs.foldl (fun acc x => if x ∈ acc then acc else acc ++ [x]) s

/-- Accumulator of the scan loop in `_find_struggle_keywords`. -/
structure ScanState where
  tier1_found : List String
  tier2_found : List String
  struggle_tweets : List Sample
deriving DecidableEq

/-- Loop body of `_find_struggle_keywords` for one tweet.  `m1`/`m2` are
the tier-1 / tier-2 matchers' `findall`. -/
def scan_tweet (m1 m2 : String → List String) (st : ScanState) (tweet : Tweet) :
    ScanState :=
  match tweet.text with
  | none => st
  | some text =>
    let tier1_matches := m1 text
    let st1 :=
      if tier1_matches ≠ [] then
        { st with
          tier1_found := set_update st.tier1_found (tier1_matches.map str_lower)
          struggle_tweets := st.struggle_tweets ++ [⟨truncate_text text, 1⟩] }
      else st
    let tier2_matches := m2 text
    let st2 :=
      if tier2_matches ≠ [] then
        { st1 with
          tier2_found := set_update st1.tier2_found (tier2_matches.map str_lower) }
      else st1
    if tier2_matches ≠ [] ∧ tier1_matches = [] then
      { st2 with struggle_tweets := st2.struggle_tweets ++ [⟨truncate_text text, 2⟩] }
    else st2

/-- The scan loop over the tweets handed to it. -/
def scan_tweets (m1 m2 : String → List String) (st : ScanState) :
    List Tweet → ScanState
  | [] => st
  | t :: ts => scan_tweets m1 m2 (scan_tweet m1 m2 st t) ts

/-- State after scanning `tweets_list[:10]` from the empty state. -/
def find_struggle_core (m1 m2 : String → List String) (tweets_list : List Tweet) :
    ScanState :=
  scan_tweets m1 m2 ⟨[], [], []⟩ (tweets_list.take 10)

/-- Source `Analyzer._find_struggle_keywords`.  `enum` models `list(...)` on a
Python set (hash-order enumeration of its elements). -/
def find_struggle_keywords (enum : List String → List String)
    (m1 m2 : String → List String) (tweets_list : List Tweet) : StruggleFindings :=
  if tweets_list = [] then ⟨[], [], []⟩
  else
    let st := find_struggle_core m1 m2 tweets_list
    ⟨enum st.tier1_found, enum st.tier2_found, st.struggle_tweets.take 3⟩

/-- The `struggle_signals` sub-table of a scoring configuration. -/
structure StruggleWeights where
  tier1_per_keyword : Nat
  tier2_per_keyword : Nat
  max_points : Nat
deriving DecidableEq

/-- The `bonus` sub-table.  Each Python persona dictionary only carries the
keys its own branch of `_calculate_smm_score` reads; a key the code never
reads for that persona is set to `0` here. -/
structure BonusWeights where
  has_founder_keywords : Nat
  recently_launched : Nat
  is_funded : Nat
  posted_last_3_days : Nat
deriving DecidableEq

/-- One persona's scoring configuration (`FOUNDER_SCORING` /
`PROJECT_SCORING` in `config.py`).  Dictionaries iterated in insertion
order become association lists in declaration order. -/
structure ScoringConfig where
  posting_pattern : List (String × Nat)
  struggle_signals : StruggleWeights
  follower_tier : List ((Nat × Nat) × Nat)
  bonus : BonusWeights
deriving DecidableEq

/-- Constant `config.FOUNDER_SCORING`. -/
def FOUNDER_SCORING : ScoringConfig where
  posting_pattern :=
    [("erratic_active", 40), ("sparse_consistent", 30), ("comeback_kid", 25),
     ("daily_poster", 0), ("dormant", 0)]
  struggle_signals := ⟨15, 10, 30⟩
  follower_tier := [((500, 2000), 20), ((2001, 5000), 15), ((150, 499), 10)]
  bonus := ⟨10, 0, 10, 5⟩

/-- Constant `config.PROJECT_SCORING`. -/
def PROJECT_SCORING : ScoringConfig where
  posting_pattern :=
    [("erratic_active", 40), ("sparse_consistent", 30), ("comeback_kid", 25),
     ("daily_poster", 0), ("dormant", 0)]
  struggle_signals := ⟨15, 10, 30⟩
  follower_tier := [((1000, 3000), 20), ((3001, 5000), 15), ((150, 999), 10)]
  bonus := ⟨0, 10, 10, 5⟩

/-- Constant `config.SCORE_GRADES`, in dictionary insertion order. -/
def SCORE_GRADES : List (String × (Nat × Nat)) :=
  [("A", (70, 100)), ("B", (50, 69)), ("C", (30, 49)), ("F", (0, 29))]

/-- Constant `config.MIN_QUALIFYING_SCORE`. -/
def MIN_QUALIFYING_SCORE : Nat := 50

/-- Constant `config.FOLLOWER_TIERS`, in dictionary insertion order. -/
def FOLLOWER_TIERS : List (String × (Nat × Nat)) :=
  [("Tier 0", (150, 499)), ("Tier 1", (500, 2000)), ("Tier 2", (2001, 5000))]

/-- Lookup `config.POSTING_PATTERNS[p].description` for the five labels the
detector can produce (any other key would raise; never reached). -/
def pattern_description (p : String) : String :=
  if p == "erratic_active" then "Posts 1-3x/week but inconsistently"
  else if p == "sparse_consistent" then "Posts ~1x/week regularly"
  else if p == "comeback_kid" then "Was gone, just returned"
  else if p == "daily_poster" then "Posts daily (already has system)"
  else if p == "dormant" then "Too inactive (30+ days)"
  else ""

/-- Python dictionary `get` with a default, over an association list. -/
def dict_get (l : List (String × Nat)) (k : String) (d : Nat) : Nat :=
  match l.find? (fun p => p.1 == k) with
  | some p => p.2
  | none => d

/-- Lines 214–225 of `analyzer.py` (struggle-signal dimension): the points
added to `score` plus the reasons appended, as a function of
`tier1_count` / `tier2_count`.  The inner caps are the literal `30`s of
the source; the final clamp is the configured `max_points`. -/
def struggle_block (w : StruggleWeights) (tier1_count tier2_count : Nat) :
    Nat × List String :=
  let s1 := if 0 < tier1_count then min (tier1_count * w.tier1_per_keyword) 30 else 0
  let r1 : List String :=
    if 0 < tier1_count then
      ["Found " ++ toString tier1_count ++ " high-priority struggle signal(s)"]
    else []
  let s2 :=
    if 0 < tier2_count ∧ s1 < 30 then
      s1 + min (tier2_count * w.tier2_per_keyword) (30 - s1)
    else s1
  let r2 : List String :=
    if 0 < tier2_count ∧ s1 < 30 then
      ["Found " ++ toString tier2_count ++ " struggle signal(s)"]
    else []
  (min s2 w.max_points, r1 ++ r2)

/-- The fields of the DataFrame row that `_calculate_smm_score` reads. -/
structure ScoreRow where
  account_type : String
  posting_pattern : String
  tier1_struggle_keywords : List String
  tier2_struggle_keywords : List String
  follower_count : Nat
  bioText : Option String
  tweets : List Tweet
  days_since_last_post : Int
deriving DecidableEq

/-- Result record of `_calculate_smm_score`. -/
structure ScoreResult where
  smm_need_score : Nat
  score_grade : String
  score_reasons : String
deriving DecidableEq

/-- Grade assignment (lines 264–270): first `SCORE_GRADES` range containing
the *unclamped* score, with the `for`/`else` fallback `'F'`. -/
def assign_grade (score : Nat) : String :=
  match SCORE_GRADES.find? (fun g => decide (g.2.1 ≤ score ∧ score ≤ g.2.2)) with
  | some g => g.1
  | none => "F"

/-- Source `Analyzer._calculate_smm_score`. -/
def calculate_smm_score (row : ScoreRow) : ScoreResult :=
  let scoring_config :=
    if row.account_type == "Founder" then FOUNDER_SCORING else PROJECT_SCORING
  -- 1. posting pattern
  let pattern := row.posting_pattern
  let pattern_score := dict_get scoring_config.posting_pattern pattern 0
  let reasons1 : List String :=
    if 0 < pattern_score then
      ["Posting: " ++ pattern_description pattern ++ " (+" ++
        toString pattern_score ++ "pts)"]
    else []
  -- 2. struggle signals
  let tier1_count := row.tier1_struggle_keywords.length
  let tier2_count := row.tier2_struggle_keywords.length
  let sb := struggle_block scoring_config.struggle_signals tier1_count tier2_count
  let reasons2 := reasons1 ++ sb.2
  -- 3. follower tier
  let fc := row.follower_count
  let tier_hit :=
    scoring_config.follower_tier.find? (fun t => decide (t.1.1 ≤ fc ∧ fc ≤ t.1.2))
  let tier_score := match tier_hit with | some t => t.2 | none => 0
  let reasons3 := reasons2 ++
    (match tier_hit with
     | some t =>
       [commaFmt fc ++ " followers - good range (+" ++ toString t.2 ++ "pts)"]
     | none => [])
  -- 4. bonuses; `str(row.get('bio', ''))` renders a missing/NaN bio as "nan"
  let bio_lower := str_lower (match row.bioText with | some s => s | none => "nan")
  let founder_hit :=
    row.account_type == "Founder" &&
      contains_any ["founder", "ceo", "builder"] bio_lower
  let founder_pts := if founder_hit then scoring_config.bonus.has_founder_keywords else 0
  let reasons4 := reasons3 ++
    (if founder_hit then ["Has founder/builder identity (+10pts)"] else [])
  let tweets_text :=
    join_sep " " (row.tweets.map fun t => t.text.getD "")
  let launched_hit :=
    row.account_type == "Project" &&
      contains_any ["launched", "mvp", "beta", "live"] (str_lower tweets_text)
  let launched_pts := if launched_hit then scoring_config.bonus.recently_launched else 0
  let reasons5 := reasons4 ++ (if launched_hit then ["Recently launched (+10pts)"] else [])
  let funded_hit :=
    ["raised", "funded", "seed", "vc"].any fun w =>
      substr_in w (str_lower bio_lower) || substr_in w (str_lower tweets_text)
  let funded_pts := if funded_hit then scoring_config.bonus.is_funded else 0
  let reasons6 := reasons5 ++ (if funded_hit then ["Funded/raising (+10pts)"] else [])
  let recency_hit := row.days_since_last_post ≤ 3
  let recency_pts := if recency_hit then scoring_config.bonus.posted_last_3_days else 0
  let reasons7 := reasons6 ++
    (if recency_hit then ["Posted in last 3 days (+5pts)"] else [])
  let score := pattern_score + sb.1 + tier_score + founder_pts + launched_pts +
    funded_pts + recency_pts
  { smm_need_score := min score 100
    score_grade := assign_grade score
    score_reasons :=
      if reasons7 = [] then "No qualifying signals"
      else join_sep " | " reasons7 }

/-- One row of the final output table (`config.OUTPUT_COLUMNS`). -/
structure Row where
  handle : String
  account_type : String
  smm_need_score : Nat
  score_grade : String
  score_reasons : String
  posting_pattern : String
  follower_count : Nat
  follower_tier : String
  days_since_last_post : Int
  struggle_keywords_found : List String
  struggle_tweets : List Sample
  bioText : Option String
  profile_url : String
deriving DecidableEq

/-- Step 4 of `run_analysis`: first `FOLLOWER_TIERS` range containing the
count, else `'N/A'`. -/
def follower_tier_of (f : Nat) : String :=
  match FOLLOWER_TIERS.find? (fun t => decide (t.2.1 ≤ f ∧ f ≤ t.2.2)) with
  | some t => t.1
  | none => "N/A"

/-- Assembly of one analyzed DataFrame row from the per-step results
(steps 5–7 read these columns). -/
def build_row (p : Profile) (account_type pattern : String)
    (sf : StruggleFindings) (days_since : Int) : Row :=
  let sr := calculate_smm_score
    ⟨account_type, pattern, sf.tier1_keywords, sf.tier2_keywords,
      p.follower_count, p.bioText, p.tweets, days_since⟩
  { handle := p.handle
    account_type := account_type
    smm_need_score := sr.smm_need_score
    score_grade := sr.score_grade
    score_reasons := sr.score_reasons
    posting_pattern := pattern
    follower_count := p.follower_count
    follower_tier := follower_tier_of p.follower_count
    days_since_last_post := days_since
    struggle_keywords_found := sf.tier1_keywords ++ sf.tier2_keywords
    struggle_tweets := sf.struggle_tweets
    bioText := p.bioText
    profile_url := p.profile_url }

/-- Steps 1–5 of `run_analysis` for one profile (each step is a per-row
`apply`; the `isinstance(t, list)` guard of step 2 is always satisfied
because the input contract makes `tweets` a list). -/
def analyze_profile (fp pp : String → Bool) (m1 m2 : String → List String)
    (enum : List String → List String) (now : Int) (p : Profile) : Row :=
  let posting := calculate_posting_gaps p.tweets now
  build_row p (classify_account_type fp pp p.bioText)
    (detect_posting_pattern posting.1 posting.2.1 posting.2.2)
    (find_struggle_keywords enum m1 m2 p.tweets) posting.2.2

/-- Order used by `final_df.sort_values(by=config.SORT_PRIORITY, ascending=False)`:
`a` may precede `b` iff `a` wins on `smm_need_score`, then on
`follower_count` (both descending). -/
def row_le (a b : Row) : Prop :=
  b.smm_need_score < a.smm_need_score ∨
    (a.smm_need_score = b.smm_need_score ∧ b.follower_count ≤ a.follower_count)

instance : DecidableRel row_le := fun a b =>
  inferInstanceAs (Decidable (b.smm_need_score < a.smm_need_score ∨
    (a.smm_need_score = b.smm_need_score ∧ b.follower_count ≤ a.follower_count)))

instance : IsTotal Row row_le :=
  ⟨by intro a b; unfold row_le; omega⟩

instance : IsTrans Row row_le :=
  ⟨by intro a b c; unfold row_le; omega⟩

/-- Step 6 of `run_analysis`: `smm_need_score >= config.MIN_QUALIFYING_SCORE`. -/
def qualifies (r : Row) : Bool :=
  decide (MIN_QUALIFYING_SCORE ≤ r.smm_need_score)

/-- Source `Analyzer.run_analysis`: analyze every profile, filter by the minimum
qualifying score, sort by score then follower count, both descending. -/
def run_analysis (fp pp : String → Bool) (m1 m2 : String → List String)
    (enum : List String → List String) (now : Int) (profiles : List Profile) :
    List Row :=
  if profiles = [] then []
  else
    let rows := profiles.map (analyze_profile fp pp m1 m2 enum now)
    let qualified := rows.filter qualifies
    if qualified = [] then []
    else List.insertionSort row_le qualified

/-!  Concrete inputs used by counterexamples and witnesses.  -/

/-- A realizable analyzed row whose raw dimension sum is
40 + 30 + 20 + 10 + 10 + 5 = 115 > 100. -/
def overflow_row : ScoreRow where
  account_type := "Founder"
  posting_pattern := "erratic_active"
  tier1_struggle_keywords := ["need to post more", "should tweet more"]
  tier2_struggle_keywords := []
  follower_count := 1000
  bioText := some "founder raised seed"
  tweets := []
  days_since_last_post := 2

/-- Three posts, two with parseable timestamps and one whose timestamp
string fails to parse. -/
def bad_cadence_tweets : List Tweet :=
  [⟨some "a", .parsed (86400 * 100)⟩, ⟨some "b", .parsed (86400 * 98)⟩,
   ⟨none, .unparseable⟩]

/-- The same post texts as `bad_cadence_tweets` under different
timestamp-field outcomes. -/
def bad_cadence_tweets_alt : List Tweet :=
  [⟨some "a", .parsed 0⟩, ⟨some "b", .missing⟩, ⟨none, .parsed 7⟩]

/-- A `findall` model that matches exactly the tier-1 phrase
`"need to post more"` when the text is that phrase (what the compiled
regex returns on these concrete texts). -/
def m1c : String → List String :=
  fun t => if t = "need to post more" then ["need to post more"] else []

/-- A `findall` model with no tier-2 matches on the concrete texts used. -/
def m2c : String → List String := fun _ => []

/-- A `findall` model matching exactly the tier-2 phrase
`"no engagement"`. -/
def m2d : String → List String :=
  fun t => if t = "no engagement" then ["no engagement"] else []

/-- A profile with an erratic cadence (gaps 2 and 8 days) and one tier-1
struggle post. -/
def p0 : Profile where
  handle := "h"
  bioText := none
  follower_count := 50
  profile_url := "u"
  tweets :=
    [⟨some "need to post more", .parsed (86400 * 100)⟩,
     ⟨some "hello", .parsed (86400 * 98)⟩,
     ⟨some "world", .parsed (86400 * 90)⟩]

/-- The analyzed row of `p0` two days after its newest post. -/
def out_row : Row :=
  analyze_profile (fun _ => false) (fun _ => false) m1c m2c id (86400 * 102) p0

/-- A single post that only the tier-2 matcher hits. -/
def t2tweets : List Tweet := [⟨some "no engagement", .parsed 0⟩]

/-!  Claim C1.  -/

/-- Claim C1 (code bug): the source grades the *unclamped* score
(lines 264–270 run before the `min(score, 100)` of line 273), so a row
whose raw dimension sum is 115 is reported with `smm_need_score = 100`
but grade `'F'` from the defensive fallback, while the configured range
containing the clamped score 100 is labelled `'A'`. -/
theorem c1_grade_uses_unclamped_score :
    (calculate_smm_score overflow_row).smm_need_score = 100 ∧
      (calculate_smm_score overflow_row).score_grade = "F" ∧
      assign_grade 100 = "A" := by
  refine ⟨by decide, by decide, by decide⟩

/-!  Claim C2.  -/

lemma scan_tweet_text_congr (m1 m2 : String → List String) (st : ScanState)
    (t t' : Tweet) (h : t.text = t'.text) :
    scan_tweet m1 m2 st t = scan_tweet m1 m2 st t' := by
  unfold scan_tweet
  rw [h]

lemma scan_tweets_text_congr (m1 m2 : String → List String) :
    ∀ (l1 : List Tweet) (st : ScanState) (l2 : List Tweet),
      l1.map Tweet.text = l2.map Tweet.text →
      scan_tweets m1 m2 st l1 = scan_tweets m1 m2 st l2 := by
  intro l1
  induction l1 with
  | nil =>
    intro st l2 h
    cases l2 with
    | nil => rfl
    | cons t ts => simp at h
  | cons t ts ih =>
    intro st l2 h
    cases l2 with
    | nil => simp at h
    | cons t' ts' =>
      simp only [List.map, List.cons.injEq] at h
      rw [scan_tweets, scan_tweets, scan_tweet_text_congr m1 m2 st t t' h.1,
        ih _ _ h.2]

lemma find_struggle_text_congr (enum : List String → List String)
    (m1 m2 : String → List String) (l1 l2 : List Tweet)
    (h : l1.map Tweet.text = l2.map Tweet.text) :
    find_struggle_keywords enum m1 m2 l1 = find_struggle_keywords enum m1 m2 l2 := by
  have hcore : find_struggle_core m1 m2 l1 = find_struggle_core m1 m2 l2 := by
    unfold find_struggle_core
    refine scan_tweets_text_congr m1 m2 _ _ _ ?_
    rw [List.map_take, List.map_take, h]
  have hnil : l1 = [] ↔ l2 = [] := by
    constructor
    · intro hh
      subst hh
      exact List.map_eq_nil_iff.mp h.symm
    · intro hh
      subst hh
      exact List.map_eq_nil_iff.mp h
  unfold find_struggle_keywords
  by_cases h1 : l1 = []
  · rw [if_pos h1, if_pos (hnil.mp h1)]
  · rw [if_neg h1, if_neg (fun hh => h1 (hnil.mpr hh)), hcore]

/-- Claim C2 (amended): (a) any unparseable timestamp makes the whole
cadence computation return the sentinel; (b) fewer than two parseable
timestamps also yields the sentinel; (c) when no timestamp is
unparseable, posts without a parseable timestamp are merely dropped: the
result is computed from the parsed timestamps alone; (d) struggle-signal
scanning reads only the posts' texts, never their timestamps. -/
theorem c2_cadence_error_handling :
    (∀ (tweets_list : List Tweet) (now : Int),
        has_unparseable tweets_list = true →
        calculate_posting_gaps tweets_list now = (9999, 0, 9999)) ∧
      (∀ (tweets_list : List Tweet) (now : Int),
        (parsed_timestamps tweets_list).length < 2 →
        calculate_posting_gaps tweets_list now = (9999, 0, 9999)) ∧
      (∀ (tweets_list : List Tweet) (now : Int),
        has_unparseable tweets_list = false →
        calculate_posting_gaps tweets_list now =
          gaps_from_timestamps (parsed_timestamps tweets_list) now) ∧
      (∀ (enum : List String → List String) (m1 m2 : String → List String)
          (l1 l2 : List Tweet), l1.map Tweet.text = l2.map Tweet.text →
        find_struggle_keywords enum m1 m2 l1 = find_struggle_keywords enum m1 m2 l2) := by
  refine ⟨?_, ?_, ?_, fun e m1 m2 l1 l2 h => find_struggle_text_congr e m1 m2 l1 l2 h⟩
  · intro l now h
    unfold calculate_posting_gaps
    split_ifs with h1
    · rfl
    · rfl
  · intro l now h
    unfold calculate_posting_gaps
    split_ifs with h1 h2
    · rfl
    · rfl
    · rfl
  · intro l now h
    unfold calculate_posting_gaps
    have hno : ¬ (has_unparseable l = true) := by
      rw [h]
      simp
    split_ifs with h1 h2
    · have hle : (parsed_timestamps l).length ≤ l.length :=
        List.length_filterMap_le _ _
      have hp : (parsed_timestamps l).length < 2 := lt_of_le_of_lt hle h1
      rw [gaps_from_timestamps, if_pos hp]
    · rw [gaps_from_timestamps, if_pos h2]
    · rfl

/-- Claim C2 counterexample: with two parseable timestamps and a third
post whose timestamp fails to parse, the code returns the sentinel even
though at least two posts have parseable timestamps — the claimed
"dropped without aborting" and the "if and only if" both fail. -/
theorem c2_unparseable_timestamp_aborts_cadence :
    calculate_posting_gaps bad_cadence_tweets (86400 * 102) = (9999, 0, 9999) ∧
      (parsed_timestamps bad_cadence_tweets).length = 2 := by
  refine ⟨by decide, by decide⟩

theorem c2_cadence_error_handling_witness :
    calculate_posting_gaps bad_cadence_tweets 0 = (9999, 0, 9999) ∧
      calculate_posting_gaps [⟨some "a", .parsed 0⟩] 0 = (9999, 0, 9999) ∧
      calculate_posting_gaps p0.tweets (86400 * 102) =
        gaps_from_timestamps (parsed_timestamps p0.tweets) (86400 * 102) ∧
      find_struggle_keywords id m1c m2c bad_cadence_tweets =
        find_struggle_keywords id m1c m2c bad_cadence_tweets_alt :=
  ⟨c2_cadence_error_handling.1 bad_cadence_tweets 0 (by decide),
   c2_cadence_error_handling.2.1 [⟨some "a", .parsed 0⟩] 0 (by decide),
   c2_cadence_error_handling.2.2.1 p0.tweets (86400 * 102) (by decide),
   c2_cadence_error_handling.2.2.2 id m1c m2c bad_cadence_tweets
     bad_cadence_tweets_alt (by decide)⟩

/-!  Claim C5.  -/

/-- Modelled from the spec (§4.4): the ordered decision list over
`CadenceMetrics`, first match wins, fallback `dormant`. -/
def spec_posting_pattern (avg_gap variance : ℚ) (days_since : Int) : String :=
  if 30 < days_since then "dormant"
  else if avg_gap ≤ 2 ∧ variance ≤ 1 then "daily_poster"
  else if 4 ≤ variance ∧ 2 ≤ avg_gap ∧ avg_gap ≤ 7 ∧ days_since ≤ 7 then "erratic_active"
  else if variance ≤ 3 ∧ 7 ≤ avg_gap ∧ avg_gap ≤ 14 ∧ days_since ≤ 14 then "sparse_consistent"
  else if days_since ≤ 7 ∧ 14 < avg_gap ∧ 10 < variance then "comeback_kid"
  else "dormant"

/-- Claim C5: the pattern detector is exactly the spec's ordered decision
list (first match wins, fallback `dormant`), and `days_since_last_post > 30`
forces `dormant` whatever the other metrics are. -/
theorem c5_pattern_decision_list (avg_gap variance : ℚ) (days_since : Int) :
    detect_posting_pattern avg_gap variance days_since =
      spec_posting_pattern avg_gap variance days_since ∧
      (30 < days_since →
        detect_posting_pattern avg_gap variance days_since = "dormant") := by
  refine ⟨rfl, fun h => ?_⟩
  unfold detect_posting_pattern
  rw [if_pos h]

theorem c5_pattern_decision_list_witness :
    (30 : Int) < 31 ∧ detect_posting_pattern 1 0 31 = "dormant" :=
  ⟨by decide, (c5_pattern_decision_list 1 0 31).2 (by decide)⟩

/-!  Claim C6.  -/

/-- Modelled from the spec (§4.7, struggle signals): tier-1 contributes
`min(count × w1, cap)`; if that is below the cap, tier-2 adds
`min(count × w2, remaining cap)`; the combined contribution is clamped to
the configured maximum. -/
def spec_struggle_points (w1 w2 cap maxPts t1 t2 : Nat) : Nat :=
  let first := min (t1 * w1) cap
  let second := if first < cap then min (t2 * w2) (cap - first) else 0
  min (first + second) maxPts

/-- Claim C6: the struggle-signal dimension of `_calculate_smm_score`
computes the spec's capped top-up formula, and under the shipped
configuration (15/10 per keyword, cap and maximum 30, identical in
`FOUNDER_SCORING` and `PROJECT_SCORING`) the combined contribution never
exceeds 30. -/
theorem c6_struggle_dimension_formula (t1 t2 : Nat) :
    (struggle_block ⟨15, 10, 30⟩ t1 t2).1 = spec_struggle_points 15 10 30 30 t1 t2 ∧
      (struggle_block ⟨15, 10, 30⟩ t1 t2).1 ≤ 30 ∧
      FOUNDER_SCORING.struggle_signals = ⟨15, 10, 30⟩ ∧
      PROJECT_SCORING.struggle_signals = ⟨15, 10, 30⟩ := by
  refine ⟨?_, ?_, rfl, rfl⟩ <;>
    · simp only [struggle_block, spec_struggle_points]
      split_ifs <;> omega

/-!  Claim C8.  -/

/-- Modelled from the spec (§4.2): decision order non-string/empty →
Unknown; founder keywords → Founder; project keywords → Project;
first-person heuristics → Founder; plural heuristics → Project; else
Unknown. -/
def spec_classify (fp pp : String → Bool) (b : Option String) : String :=
  match b with
  | none => "Unknown"
  | some s =>
    if s = "" then "Unknown"
    else if fp s then "Founder"
    else if pp s then "Project"
    else if contains_any ["i am", "i\x27m", "my startup", "i build"] (str_lower s) then
      "Founder"
    else if contains_any ["we are", "we\x27re", "our team", "we build"] (str_lower s) then
      "Project"
    else "Unknown"

/-- Claim C8: provided the compiled keyword matchers never match the empty
string (true of any `\b(..)\b` pattern), the classifier implements exactly
the spec's precedence order, and a bio matched by the founder matcher is
classified `Founder` no matter what the project matcher says. -/
theorem c8_classification_precedence (fp pp : String → Bool) (b : Option String)
    (hfp : fp "" = false) (hpp : pp "" = false) :
    classify_account_type fp pp b = spec_classify fp pp b ∧
      (∀ s : String, fp s = true →
        classify_account_type fp pp (some s) = "Founder") := by
  constructor
  · cases b with
    | none => rfl
    | some s =>
      by_cases hs : s = ""
      · subst hs
        unfold classify_account_type spec_classify
        dsimp only
        rw [hfp, hpp]
        decide
      · unfold classify_account_type spec_classify
        dsimp only
        rw [if_neg hs]
  · intro s hf
    unfold classify_account_type
    dsimp only
    rw [hf]
    simp

theorem c8_classification_precedence_witness :
    classify_account_type (fun s => s == "founder here") (fun s => s == "official")
        (some "founder here") = "Founder" ∧
      classify_account_type (fun s => s == "founder here") (fun s => s == "official")
        (some "") =
        spec_classify (fun s => s == "founder here") (fun s => s == "official")
          (some "") :=
  ⟨(c8_classification_precedence (fun s => s == "founder here")
      (fun s => s == "official") (some "") (by decide) (by decide)).2
      "founder here" (by decide),
   (c8_classification_precedence (fun s => s == "founder here")
      (fun s => s == "official") (some "") (by decide) (by decide)).1⟩

/-!  Claims C7 and C10: the struggle scan loop.  -/

lemma set_update_cons (s : List String) (x : String) (xs : List String) :
    set_update s (x :: xs) = set_update (if x ∈ s then s else s ++ [x]) xs := rfl

lemma mem_set_update (xs : List String) : ∀ (s : List String) (a : String),
    a ∈ set_update s xs ↔ a ∈ s ∨ a ∈ xs := by
  induction xs with
  | nil =>
    intro s a
    simp [set_update]
  | cons x xs ih =>
    intro s a
    rw [set_update_cons, ih]
    by_cases hx : x ∈ s
    · rw [if_pos hx]
      constructor
      · rintro (h | h)
        · exact Or.inl h
        · exact Or.inr (List.mem_cons_of_mem _ h)
      · rintro (h | h)
        · exact Or.inl h
        · rcases List.mem_cons.mp h with rfl | h2
          · exact Or.inl hx
          · exact Or.inr h2
    · rw [if_neg hx]
      simp only [List.mem_append, List.mem_singleton, List.mem_cons]
      tauto

lemma set_update_nodup (xs : List String) : ∀ (s : List String), s.Nodup →
    (set_update s xs).Nodup := by
  induction xs with
  | nil =>
    intro s h
    simpa [set_update] using h
  | cons x xs ih =>
    intro s h
    rw [set_update_cons]
    by_cases hx : x ∈ s
    · rw [if_pos hx]
      exact ih s h
    · rw [if_neg hx]
      refine ih _ ?_
      simp [List.nodup_append, h, hx]

/-- The samples the loop body collects from one tweet: a tier-1 sample if
the tier-1 matcher hits, else a tier-2 sample if only tier-2 hits. -/
def per_tweet_samples (m1 m2 : String → List String) (t : Tweet) : List Sample :=
  match t.text with
  | none => []
  | some text =>
    if m1 text ≠ [] then [⟨truncate_text text, 1⟩]
    else if m2 text ≠ [] then [⟨truncate_text text, 2⟩]
    else []

/-- Modelled from the spec (§4.5): the evidence samples collected over the
scanned posts, in post-scan order, before the keep-3 cut. -/
def spec_collected_samples (m1 m2 : String → List String) : List Tweet → List Sample
  | [] => []
  | t :: ts => per_tweet_samples m1 m2 t ++ spec_collected_samples m1 m2 ts

lemma scan_tweet_tier1 (m1 m2 : String → List String) (st : ScanState) (t : Tweet) :
    (scan_tweet m1 m2 st t).tier1_found =
      match t.text with
      | none => st.tier1_found
      | some text =>
        if m1 text ≠ [] then set_update st.tier1_found ((m1 text).map str_lower)
        else st.tier1_found := by
  unfold scan_tweet
  cases t.text with
  | none => rfl
  | some text =>
    dsimp only
    split_ifs <;> rfl

lemma scan_tweet_tier2 (m1 m2 : String → List String) (st : ScanState) (t : Tweet) :
    (scan_tweet m1 m2 st t).tier2_found =
      match t.text with
      | none => st.tier2_found
      | some text =>
        if m2 text ≠ [] then set_update st.tier2_found ((m2 text).map str_lower)
        else st.tier2_found := by
  unfold scan_tweet
  cases t.text with
  | none => rfl
  | some text =>
    dsimp only
    split_ifs <;> rfl

lemma scan_tweet_samples (m1 m2 : String → List String) (st : ScanState) (t : Tweet) :
    (scan_tweet m1 m2 st t).struggle_tweets =
      st.struggle_tweets ++ per_tweet_samples m1 m2 t := by
  unfold scan_tweet per_tweet_samples
  cases t.text with
  | none => simp
  | some text =>
    dsimp only
    split_ifs <;> simp_all

lemma scan_tweets_samples (m1 m2 : String → List String) :
    ∀ (l : List Tweet) (st : ScanState),
      (scan_tweets m1 m2 st l).struggle_tweets =
        st.struggle_tweets ++ spec_collected_samples m1 m2 l := by
  intro l
  induction l with
  | nil =>
    intro st
    simp [scan_tweets, spec_collected_samples]
  | cons t ts ih =>
    intro st
    rw [scan_tweets, ih, scan_tweet_samples, spec_collected_samples,
      List.append_assoc]

lemma scan_tweets_tier1_mem (m1 m2 : String → List String) :
    ∀ (l : List Tweet) (st : ScanState) (a : String),
      a ∈ (scan_tweets m1 m2 st l).tier1_found ↔
        a ∈ st.tier1_found ∨
          ∃ t ∈ l, ∃ text, t.text = some text ∧ a ∈ (m1 text).map str_lower := by
  intro l
  induction l with
  | nil =>
    intro st a
    simp [scan_tweets]
  | cons t ts ih =>
    intro st a
    rw [scan_tweets, ih, scan_tweet_tier1, List.exists_mem_cons_iff]
    cases ht : t.text with
    | none =>
      simp [ht]
    | some text =>
      by_cases h1 : m1 text = []
      · simp [ht, h1]
      · dsimp only
        rw [if_pos h1, mem_set_update]
        simp only [ht, Option.some.injEq, exists_eq_left']
        rw [or_assoc]

lemma scan_tweets_tier2_mem (m1 m2 : String → List String) :
    ∀ (l : List Tweet) (st : ScanState) (a : String),
      a ∈ (scan_tweets m1 m2 st l).tier2_found ↔
        a ∈ st.tier2_found ∨
          ∃ t ∈ l, ∃ text, t.text = some text ∧ a ∈ (m2 text).map str_lower := by
  intro l
  induction l with
  | nil =>
    intro st a
    simp [scan_tweets]
  | cons t ts ih =>
    intro st a
    rw [scan_tweets, ih, scan_tweet_tier2, List.exists_mem_cons_iff]
    cases ht : t.text with
    | none =>
      simp [ht]
    | some text =>
      by_cases h2 : m2 text = []
      · simp [ht, h2]
      · dsimp only
        rw [if_pos h2, mem_set_update]
        simp only [ht, Option.some.injEq, exists_eq_left']
        rw [or_assoc]


lemma scan_tweets_tier1_nodup (m1 m2 : String → List String) :
    ∀ (l : List Tweet) (st : ScanState), st.tier1_found.Nodup →
      (scan_tweets m1 m2 st l).tier1_found.Nodup := by
  intro l
  induction l with
  | nil =>
    intro st h
    exact h
  | cons t ts ih =>
    intro st h
    rw [scan_tweets]
    refine ih _ ?_
    rw [scan_tweet_tier1]
    cases t.text with
    | none => exact h
    | some text =>
      dsimp only
      split_ifs with h1
      · exact set_update_nodup _ _ h
      · exact h

lemma scan_tweets_tier2_nodup (m1 m2 : String → List String) :
    ∀ (l : List Tweet) (st : ScanState), st.tier2_found.Nodup →
      (scan_tweets m1 m2 st l).tier2_found.Nodup := by
  intro l
  induction l with
  | nil =>
    intro st h
    exact h
  | cons t ts ih =>
    intro st h
    rw [scan_tweets]
    refine ih _ ?_
    rw [scan_tweet_tier2]
    cases t.text with
    | none => exact h
    | some text =>
      dsimp only
      split_ifs with h2
      · exact set_update_nodup _ _ h
      · exact h

lemma mem_spec_collected (m1 m2 : String → List String) :
    ∀ (l : List Tweet) (s : Sample), s ∈ spec_collected_samples m1 m2 l →
      ∃ t ∈ l, ∃ text, t.text = some text ∧
        ((m1 text ≠ [] ∧ s = ⟨truncate_text text, 1⟩) ∨
          (m1 text = [] ∧ m2 text ≠ [] ∧ s = ⟨truncate_text text, 2⟩)) := by
  intro l
  induction l with
  | nil =>
    intro s hs
    simp [spec_collected_samples] at hs
  | cons t ts ih =>
    intro s hs
    rw [spec_collected_samples] at hs
    rcases List.mem_append.mp hs with hs | hs
    · cases ht : t.text with
      | none =>
        simp only [per_tweet_samples, ht] at hs
        cases hs
      | some text =>
        simp only [per_tweet_samples, ht] at hs
        split_ifs at hs with h1 h2
        · refine ⟨t, List.mem_cons_self t ts, text, ht, Or.inl ⟨h1, ?_⟩⟩
          exact List.mem_singleton.mp hs
        · rw [not_not] at h1
          refine ⟨t, List.mem_cons_self t ts, text, ht, Or.inr ⟨h1, h2, ?_⟩⟩
          exact List.mem_singleton.mp hs
        · cases hs
    · obtain ⟨t', ht', rest⟩ := ih s hs
      exact ⟨t', List.mem_cons_of_mem _ ht', rest⟩

/-- Claim C10: the tier-1 and tier-2 keyword collections are
duplicate-free and contain exactly the normalized (lower-cased) matches
found across the scanned posts, so each matched keyword appears once no
matter how many posts or occurrences produced it; the enumerated lists
whose lengths the scorer multiplies by the per-keyword weights have the
same length as these duplicate-free sets for every length-preserving
enumeration. -/
theorem c10_distinct_keyword_counts (m1 m2 : String → List String)
    (tweets_list : List Tweet) :
    (find_struggle_core m1 m2 tweets_list).tier1_found.Nodup ∧
      (find_struggle_core m1 m2 tweets_list).tier2_found.Nodup ∧
      (∀ a, a ∈ (find_struggle_core m1 m2 tweets_list).tier1_found ↔
        ∃ t ∈ tweets_list.take 10, ∃ text, t.text = some text ∧
          a ∈ (m1 text).map str_lower) ∧
      (∀ a, a ∈ (find_struggle_core m1 m2 tweets_list).tier2_found ↔
        ∃ t ∈ tweets_list.take 10, ∃ text, t.text = some text ∧
          a ∈ (m2 text).map str_lower) ∧
      (∀ enum : List String → List String, (∀ l, (enum l).length = l.length) →
        (find_struggle_keywords enum m1 m2 tweets_list).tier1_keywords.length =
          (find_struggle_core m1 m2 tweets_list).tier1_found.length ∧
        (find_struggle_keywords enum m1 m2 tweets_list).tier2_keywords.length =
          (find_struggle_core m1 m2 tweets_list).tier2_found.length) := by
  refine ⟨?_, ?_, ?_, ?_, ?_⟩
  · exact scan_tweets_tier1_nodup m1 m2 _ _ List.nodup_nil
  · exact scan_tweets_tier2_nodup m1 m2 _ _ List.nodup_nil
  · intro a
    rw [find_struggle_core, scan_tweets_tier1_mem]
    simp
  · intro a
    rw [find_struggle_core, scan_tweets_tier2_mem]
    simp
  · intro e he
    unfold find_struggle_keywords
    split_ifs with h
    · subst h
      exact ⟨rfl, rfl⟩
    · exact ⟨he _, he _⟩

theorem c10_distinct_keyword_counts_witness :
    (find_struggle_keywords List.reverse m1c m2c p0.tweets).tier1_keywords.length =
      (find_struggle_core m1c m2c p0.tweets).tier1_found.length ∧
      (find_struggle_keywords List.reverse m1c m2c p0.tweets).tier2_keywords.length =
        (find_struggle_core m1c m2c p0.tweets).tier2_found.length :=
  (c10_distinct_keyword_counts m1c m2c p0.tweets).2.2.2.2 List.reverse
    (fun l => List.length_reverse l)

/-- Claim C7: only the first 10 posts are scanned; the kept samples are
exactly the first 3 collected, in post-scan order; a tier-1-matched post
never contributes a tier-2 sample, while its tier-2 keyword matches still
land in the tier-2 keyword set; sample texts are truncated to 100
characters plus an ellipsis marker exactly when longer than 100. -/
theorem c7_sample_collection (enum : List String → List String)
    (m1 m2 : String → List String) (tweets_list : List Tweet) :
    find_struggle_keywords enum m1 m2 tweets_list =
      find_struggle_keywords enum m1 m2 (tweets_list.take 10) ∧
      (find_struggle_keywords enum m1 m2 tweets_list).struggle_tweets =
        (spec_collected_samples m1 m2 (tweets_list.take 10)).take 3 ∧
      (find_struggle_keywords enum m1 m2 tweets_list).struggle_tweets.length ≤ 3 ∧
      (∀ s ∈ (find_struggle_keywords enum m1 m2 tweets_list).struggle_tweets,
        s.tier = 2 →
          ∃ t ∈ tweets_list.take 10, ∃ text, t.text = some text ∧
            m1 text = [] ∧ m2 text ≠ [] ∧ s.text = truncate_text text) ∧
      (∀ a, a ∈ (find_struggle_core m1 m2 tweets_list).tier2_found ↔
        ∃ t ∈ tweets_list.take 10, ∃ text, t.text = some text ∧
          a ∈ (m2 text).map str_lower) ∧
      (∀ text : String,
        (text.length ≤ 100 → truncate_text text = text) ∧
        (100 < text.length → truncate_text text = str_take text 100 ++ "...")) := by
  have htake : (tweets_list.take 10).take 10 = tweets_list.take 10 := by
    rw [List.take_take]
    norm_num
  have hcore : find_struggle_core m1 m2 (tweets_list.take 10) =
      find_struggle_core m1 m2 tweets_list := by
    unfold find_struggle_core
    rw [htake]
  have hsamp : (find_struggle_keywords enum m1 m2 tweets_list).struggle_tweets =
      (spec_collected_samples m1 m2 (tweets_list.take 10)).take 3 := by
    unfold find_struggle_keywords
    split_ifs with h
    · subst h
      rfl
    · dsimp only
      rw [find_struggle_core, scan_tweets_samples]
      simp
  refine ⟨?_, hsamp, ?_, ?_, ?_, ?_⟩
  · unfold find_struggle_keywords
    by_cases h : tweets_list = []
    · subst h
      rfl
    · rw [if_neg h, if_neg (by simp [List.take_eq_nil_iff, h]), hcore]
  · rw [hsamp]
    exact List.length_take_le _ _
  · intro s hs htier
    rw [hsamp] at hs
    obtain ⟨t, htl, text, htext, hcase⟩ :=
      mem_spec_collected m1 m2 _ s (List.mem_of_mem_take hs)
    rcases hcase with ⟨h1, rfl⟩ | ⟨h1, h2, rfl⟩
    · simp at htier
    · exact ⟨t, htl, text, htext, h1, h2, rfl⟩
  · intro a
    rw [find_struggle_core, scan_tweets_tier2_mem]
    simp
  · intro text
    constructor
    · intro h
      unfold truncate_text
      rw [if_neg (by omega)]
    · intro h
      unfold truncate_text
      rw [if_pos h]

theorem c7_sample_collection_witness :
    (⟨"no engagement", 2⟩ : Sample) ∈
        (find_struggle_keywords id m1c m2d t2tweets).struggle_tweets ∧
      ∃ t ∈ t2tweets.take 10, ∃ text, t.text = some text ∧
        m1c text = [] ∧ m2d text ≠ [] ∧
        (⟨"no engagement", 2⟩ : Sample).text = truncate_text text :=
  ⟨by decide,
   (c7_sample_collection id m1c m2d t2tweets).2.2.2.1 ⟨"no engagement", 2⟩
     (by decide) (by decide)⟩

/-!  Claims C4 and C9: the pipeline.  -/

lemma calc_smm_le (row : ScoreRow) :
    (calculate_smm_score row).smm_need_score ≤ 100 := by
  unfold calculate_smm_score
  exact Nat.min_le_right _ _

lemma assign_grade_mem (s : Nat) : assign_grade s ∈ ["A", "B", "C", "F"] := by
  unfold assign_grade
  cases h : SCORE_GRADES.find? (fun g => decide (g.2.1 ≤ s ∧ s ≤ g.2.2)) with
  | none => simp
  | some g =>
    have hg := List.mem_of_find?_eq_some h
    rw [SCORE_GRADES] at hg
    simp only [List.mem_cons, List.not_mem_nil, or_false] at hg
    rcases hg with rfl | rfl | rfl | rfl <;> simp

lemma calc_smm_grade_mem (row : ScoreRow) :
    (calculate_smm_score row).score_grade ∈ ["A", "B", "C", "F"] := by
  unfold calculate_smm_score
  exact assign_grade_mem _

lemma build_row_bounds (p : Profile) (a pat : String) (sf : StruggleFindings)
    (ds : Int) :
    (build_row p a pat sf ds).smm_need_score ≤ 100 ∧
      (build_row p a pat sf ds).score_grade ∈ ["A", "B", "C", "F"] := by
  unfold build_row
  exact ⟨calc_smm_le _, calc_smm_grade_mem _⟩

/-- Claim C4: every analyzed profile gets `0 ≤ smm_need_score ≤ 100` and a
`score_grade` among the configured labels `A`, `B`, `C`, `F` (the
defensive fallback also yields the configured label `F`); in particular
this holds for every row of the pipeline output. -/
theorem c4_score_bounded_grade_configured (fp pp : String → Bool)
    (m1 m2 : String → List String) (enum : List String → List String)
    (now : Int) (p : Profile) (profiles : List Profile) (r : Row) :
    (0 ≤ (analyze_profile fp pp m1 m2 enum now p).smm_need_score ∧
      (analyze_profile fp pp m1 m2 enum now p).smm_need_score ≤ 100 ∧
      (analyze_profile fp pp m1 m2 enum now p).score_grade ∈ ["A", "B", "C", "F"]) ∧
      (r ∈ run_analysis fp pp m1 m2 enum now profiles →
        0 ≤ r.smm_need_score ∧ r.smm_need_score ≤ 100 ∧
          r.score_grade ∈ ["A", "B", "C", "F"]) := by
  have hrow : ∀ q : Profile,
      (analyze_profile fp pp m1 m2 enum now q).smm_need_score ≤ 100 ∧
        (analyze_profile fp pp m1 m2 enum now q).score_grade ∈ ["A", "B", "C", "F"] := by
    intro q
    unfold analyze_profile
    exact build_row_bounds _ _ _ _ _
  refine ⟨⟨Nat.zero_le _, (hrow p).1, (hrow p).2⟩, ?_⟩
  intro hr
  unfold run_analysis at hr
  dsimp only at hr
  split_ifs at hr with h1 h2
  · cases hr
  · cases hr
  · rw [List.mem_insertionSort] at hr
    obtain ⟨q, hq, rfl⟩ := List.mem_map.mp (List.mem_of_mem_filter hr)
    exact ⟨Nat.zero_le _, (hrow q).1, (hrow q).2⟩

lemma cadence_p0_early : calculate_posting_gaps p0.tweets (86400 * 102) = (5, 9, 2) := by
  rw [calculate_posting_gaps, if_neg (by decide), if_neg (by decide), if_neg (by decide),
    show parsed_timestamps p0.tweets = [86400 * 100, 86400 * 98, 86400 * 90] from rfl,
    gaps_from_timestamps, if_neg (by decide)]
  norm_num [List.insertionSort, List.orderedInsert, consecutive_gaps, delta_days,
    Int.fdiv, if_neg (show ¬([2, 8] : List Int) = [] by decide)]

/-- The value of `out_row`, evaluated. -/
lemma out_row_eval :
    out_row =
      { handle := "h"
        account_type := "Unknown"
        smm_need_score := 60
        score_grade := "B"
        score_reasons := "Posting: Posts 1-3x/week but inconsistently (+40pts) | Found 1 high-priority struggle signal(s) | Posted in last 3 days (+5pts)"
        posting_pattern := "erratic_active"
        follower_count := 50
        follower_tier := "N/A"
        days_since_last_post := 2
        struggle_keywords_found := ["need to post more"]
        struggle_tweets := [⟨"need to post more", 1⟩]
        bioText := none
        profile_url := "u" } := by
  unfold out_row analyze_profile
  dsimp only
  rw [cadence_p0_early]
  decide

lemma run_p0_early :
    run_analysis (fun _ => false) (fun _ => false) m1c m2c id (86400 * 102) [p0] =
      [out_row] := by
  unfold run_analysis
  dsimp only
  rw [show List.map
      (analyze_profile (fun _ => false) (fun _ => false) m1c m2c id (86400 * 102))
      [p0] = [out_row] from rfl, out_row_eval]
  decide

theorem c4_score_bounded_grade_configured_witness :
    out_row ∈ run_analysis (fun _ => false) (fun _ => false) m1c m2c id
        (86400 * 102) [p0] ∧
      0 ≤ out_row.smm_need_score ∧ out_row.smm_need_score ≤ 100 ∧
      out_row.score_grade ∈ ["A", "B", "C", "F"] :=
  ⟨by rw [run_p0_early]; exact List.mem_singleton.mpr rfl,
   (c4_score_bounded_grade_configured (fun _ => false) (fun _ => false) m1c m2c id
     (86400 * 102) p0 [p0] out_row).2
     (by rw [run_p0_early]; exact List.mem_singleton.mpr rfl)⟩

/-- Claim C9: the pipeline output is sorted by `smm_need_score` then
`follower_count`, both descending, and is a permutation of exactly the
analyzed rows whose score reaches `MIN_QUALIFYING_SCORE` (50). -/
theorem c9_filter_sort_output (fp pp : String → Bool) (m1 m2 : String → List String)
    (enum : List String → List String) (now : Int) (profiles : List Profile) :
    List.Sorted row_le (run_analysis fp pp m1 m2 enum now profiles) ∧
      (run_analysis fp pp m1 m2 enum now profiles).Perm
        ((profiles.map (analyze_profile fp pp m1 m2 enum now)).filter qualifies) := by
  unfold run_analysis
  dsimp only
  split_ifs with h1 h2
  · subst h1
    exact ⟨List.sorted_nil, by simp⟩
  · rw [h2]
    exact ⟨List.sorted_nil, List.Perm.refl _⟩
  · exact ⟨List.sorted_insertionSort _ _, List.perm_insertionSort _ _⟩

/-!  Claim C3: determinism.  -/

/-- Erase the one output column whose element order depends on Python's
set enumeration (`struggle_keywords_found`). -/
def strip_kw (r : Row) : Row :=
  { r with struggle_keywords_found := [] }

lemma calc_smm_tiers (a b : String) (l1 l2 l1' l2' : List String) (fc : Nat)
    (bx : Option String) (tw : List Tweet) (ds : Int)
    (h1 : l1.length = l1'.length) (h2 : l2.length = l2'.length) :
    calculate_smm_score ⟨a, b, l1, l2, fc, bx, tw, ds⟩ =
      calculate_smm_score ⟨a, b, l1', l2', fc, bx, tw, ds⟩ := by
  unfold calculate_smm_score
  dsimp only
  rw [h1, h2]

lemma fsk_samples_enum (e1 e2 : List String → List String)
    (m1 m2 : String → List String) (tw : List Tweet) :
    (find_struggle_keywords e1 m1 m2 tw).struggle_tweets =
      (find_struggle_keywords e2 m1 m2 tw).struggle_tweets := by
  unfold find_struggle_keywords
  split_ifs <;> rfl

lemma fsk_tier_lengths_enum (e1 e2 : List String → List String)
    (h1 : ∀ l, (e1 l).length = l.length) (h2 : ∀ l, (e2 l).length = l.length)
    (m1 m2 : String → List String) (tw : List Tweet) :
    (find_struggle_keywords e1 m1 m2 tw).tier1_keywords.length =
      (find_struggle_keywords e2 m1 m2 tw).tier1_keywords.length ∧
      (find_struggle_keywords e1 m1 m2 tw).tier2_keywords.length =
        (find_struggle_keywords e2 m1 m2 tw).tier2_keywords.length := by
  unfold find_struggle_keywords
  split_ifs
  · exact ⟨rfl, rfl⟩
  · dsimp only
    rw [h1 _, h2 _, h1 _, h2 _]
    exact ⟨rfl, rfl⟩

lemma strip_build_congr (p : Profile) (a pat : String) (sf1 sf2 : StruggleFindings)
    (ds : Int) (hsam : sf1.struggle_tweets = sf2.struggle_tweets)
    (hl1 : sf1.tier1_keywords.length = sf2.tier1_keywords.length)
    (hl2 : sf1.tier2_keywords.length = sf2.tier2_keywords.length) :
    strip_kw (build_row p a pat sf1 ds) = strip_kw (build_row p a pat sf2 ds) := by
  unfold build_row strip_kw
  dsimp only
  rw [calc_smm_tiers a pat sf1.tier1_keywords sf1.tier2_keywords sf2.tier1_keywords
    sf2.tier2_keywords p.follower_count p.bioText p.tweets ds hl1 hl2, hsam]

lemma analyze_profile_enum_congr (fp pp : String → Bool)
    (m1 m2 : String → List String) (e1 e2 : List String → List String)
    (now : Int) (p : Profile)
    (h1 : ∀ l, (e1 l).length = l.length) (h2 : ∀ l, (e2 l).length = l.length) :
    strip_kw (analyze_profile fp pp m1 m2 e1 now p) =
      strip_kw (analyze_profile fp pp m1 m2 e2 now p) := by
  unfold analyze_profile
  dsimp only
  exact strip_build_congr p _ _ _ _ _
    (fsk_samples_enum e1 e2 m1 m2 p.tweets)
    (fsk_tier_lengths_enum e1 e2 h1 h2 m1 m2 p.tweets).1
    (fsk_tier_lengths_enum e1 e2 h1 h2 m1 m2 p.tweets).2

lemma filter_qualifies_strip :
    ∀ (l1 l2 : List Row), l1.map strip_kw = l2.map strip_kw →
      (l1.filter qualifies).map strip_kw = (l2.filter qualifies).map strip_kw := by
  intro l1
  induction l1 with
  | nil =>
    intro l2 h
    cases l2 with
    | nil => rfl
    | cons b l2' => simp at h
  | cons a l ih =>
    intro l2 h
    cases l2 with
    | nil => simp at h
    | cons b l2' =>
      simp only [List.map_cons, List.cons.injEq] at h
      obtain ⟨hab, hl⟩ := h
      have hq : qualifies a = qualifies b := by
        have hqs := congrArg qualifies hab
        exact hqs
      rw [List.filter_cons, List.filter_cons]
      by_cases hqa : qualifies a = true
      · rw [if_pos hqa, if_pos (hq ▸ hqa)]
        simp only [List.map_cons]
        exact List.cons_eq_cons.mpr ⟨hab, ih _ hl⟩
      · rw [if_neg hqa, if_neg (hq ▸ hqa)]
        exact ih _ hl

/-- Claim C3 (amended): with the wall clock and the set enumeration held
fixed, the pipeline is a pure function; in particular, for any two
length-preserving set enumerations (any two hash seeds) the two runs agree
on every output row except for the element order inside the
`struggle_keywords_found` column — same scores, grades, reason strings,
qualifying set, and output row order. -/
theorem c3_determinism_modulo_enumeration (fp pp : String → Bool)
    (m1 m2 : String → List String) (e1 e2 : List String → List String)
    (now : Int) (profiles : List Profile)
    (h1 : ∀ l, (e1 l).length = l.length) (h2 : ∀ l, (e2 l).length = l.length) :
    (run_analysis fp pp m1 m2 e1 now profiles).map strip_kw =
      (run_analysis fp pp m1 m2 e2 now profiles).map strip_kw := by
  have hrows : (profiles.map (analyze_profile fp pp m1 m2 e1 now)).map strip_kw =
      (profiles.map (analyze_profile fp pp m1 m2 e2 now)).map strip_kw := by
    rw [List.map_map, List.map_map]
    exact List.map_congr_left
      (fun p _ => analyze_profile_enum_congr fp pp m1 m2 e1 e2 now p h1 h2)
  have hfilter := filter_qualifies_strip _ _ hrows
  unfold run_analysis
  dsimp only
  by_cases hp : profiles = []
  · rw [if_pos hp, if_pos hp]
  · rw [if_neg hp, if_neg hp]
    by_cases hq1 : (profiles.map (analyze_profile fp pp m1 m2 e1 now)).filter
        qualifies = []
    · have hq2 : (profiles.map (analyze_profile fp pp m1 m2 e2 now)).filter
          qualifies = [] := by
        have := hfilter
        rw [hq1] at this
        exact List.map_eq_nil_iff.mp this.symm
      rw [if_pos hq1, if_pos hq2]
    · have hq2 : ¬ (profiles.map (analyze_profile fp pp m1 m2 e2 now)).filter
          qualifies = [] := by
        intro hh
        rw [hh] at hfilter
        exact hq1 (List.map_eq_nil_iff.mp hfilter)
      rw [if_neg hq1, if_neg hq2,
        List.map_insertionSort row_le row_le strip_kw _ (fun a _ b _ => Iff.rfl),
        List.map_insertionSort row_le row_le strip_kw _ (fun a _ b _ => Iff.rfl),
        hfilter]

theorem c3_determinism_modulo_enumeration_witness :
    (run_analysis (fun _ => false) (fun _ => false) m1c m2c id (86400 * 102)
        [p0]).map strip_kw =
      (run_analysis (fun _ => false) (fun _ => false) m1c m2c List.reverse
        (86400 * 102) [p0]).map strip_kw :=
  c3_determinism_modulo_enumeration (fun _ => false) (fun _ => false) m1c m2c id
    List.reverse (86400 * 102) [p0] (fun _ => rfl)
    (fun l => List.length_reverse l)

lemma cadence_p0_late : calculate_posting_gaps p0.tweets (86400 * 150) = (5, 9, 50) := by
  rw [calculate_posting_gaps, if_neg (by decide), if_neg (by decide), if_neg (by decide),
    show parsed_timestamps p0.tweets = [86400 * 100, 86400 * 98, 86400 * 90] from rfl,
    gaps_from_timestamps, if_neg (by decide)]
  norm_num [List.insertionSort, List.orderedInsert, consecutive_gaps, delta_days,
    Int.fdiv, if_neg (show ¬([2, 8] : List Int) = [] by decide)]

lemma run_p0_late :
    run_analysis (fun _ => false) (fun _ => false) m1c m2c id (86400 * 150) [p0] =
      [] := by
  have hrow : analyze_profile (fun _ => false) (fun _ => false) m1c m2c id
      (86400 * 150) p0 =
      { handle := "h"
        account_type := "Unknown"
        smm_need_score := 15
        score_grade := "F"
        score_reasons := "Found 1 high-priority struggle signal(s)"
        posting_pattern := "dormant"
        follower_count := 50
        follower_tier := "N/A"
        days_since_last_post := 50
        struggle_keywords_found := ["need to post more"]
        struggle_tweets := [⟨"need to post more", 1⟩]
        bioText := none
        profile_url := "u" } := by
    unfold analyze_profile
    dsimp only
    rw [cadence_p0_late]
    decide
  unfold run_analysis
  dsimp only
  rw [show List.map
      (analyze_profile (fun _ => false) (fun _ => false) m1c m2c id (86400 * 150))
      [p0] =
      [analyze_profile (fun _ => false) (fun _ => false) m1c m2c id (86400 * 150) p0]
      from rfl, hrow]
  decide

/-- Claim C3 counterexample: the same profile list and configuration run
at two different wall-clock instants produce different outputs (at the
earlier instant the profile scores 60 and is emitted; 48 days later its
pattern is dormant, it scores 15, and the output is empty) — the code
reads `datetime.now`, so byte-identical output across runs is not
guaranteed. -/
theorem c3_output_depends_on_run_time :
    run_analysis (fun _ => false) (fun _ => false) m1c m2c id (86400 * 102) [p0] ≠
      run_analysis (fun _ => false) (fun _ => false) m1c m2c id (86400 * 150) [p0] := by
  rw [run_p0_early, run_p0_late]
  simp

end SMM
